import Mathlib

/-!
Verification of the Atom value model and FormalTheory equivalence facility
of `src/main.py`.

Modelling conventions for the shallow embedding:

* Python values that an `AtomDataclass` can hold are the inductive `PyVal`.
  Python `float`s are represented by their 64-bit IEEE-754 bit pattern (a
  `Nat` below `2 ^ 64`); the IEEE arithmetic and comparison operations
  themselves are parameters of the model (`FloatOps`), since the claims under
  study never depend on the numeric value of a float, only on how floats are
  framed in the wire format and on which operand-kind combinations raise.
* Python `dict`s are modelled as insertion-ordered association lists of
  key/value pairs (`List (PyVal × PyVal)`).
* Byte strings are `List Nat`, each entry read modulo 256 where its numeric
  value matters.
* Python exceptions become the `PyErr` error type of `Except` results; the
  constructors are named after the exception classes the interpreter raises.
-/

/-- The runtime shapes a Python value held by an `AtomDataclass` can have.
`none_v` is Python's `None`, standing for the unsupported shapes outside the
six kinds the spec recognises. -/
inductive PyVal where
  | str (s : String)
  | int (n : Int)
  | bool (b : Bool)
  | float (bits : Nat)
  | list (xs : List PyVal)
  | dict (items : List (PyVal × PyVal))
  | none_v

/-- The Python exceptions the modelled code can raise. -/
inductive PyErr where
  | valueError (msg : String)
  | structError
  | unicodeDecodeError
  | frozenInstanceError
  | typeError
  | zeroDivisionError
  deriving DecidableEq, Repr

/-- `type(v).__name__.lower()`, as computed by `AtomDataclass.__post_init__`
(src/main.py:42-44).  Note these are the SHORT runtime type names, not the
six long kind names used elsewhere in the class. -/
def typeName : PyVal → String
  | .str _ => "str"
  | .int _ => "int"
  | .bool _ => "bool"
  | .float _ => "float"
  | .list _ => "list"
  | .dict _ => "dict"
  | .none_v => "nonetype"

/-- The six kind names of the spec's data model (the tags `_encode_data` and
`decode` dispatch on). -/
def sixKinds : List String :=
  ["string", "integer", "float", "boolean", "list", "dictionary"]

/-- Big-endian bytes of `n`, `w` bytes wide (`struct.pack('!I'/'!q'/'!d')`
byte layout). -/
def beBytes : Nat → Nat → List Nat
  | 0, _ => []
  | w + 1, n => (n / 256 ^ w % 256) :: beBytes w n

/-- Big-endian unsigned integer read from a byte list
(`struct.unpack` numeric reassembly); entries are read modulo 256. -/
def beNat (l : List Nat) : Nat :=
  l.foldl (fun acc b => acc * 256 + b % 256) 0

/-- `struct.pack('!I', n)`: 4 bytes big-endian, `struct.error` when `n` does
not fit in 32 bits. -/
def packU32 (n : Nat) : Except PyErr (List Nat) :=
  if n < 2 ^ 32 then .ok (beBytes 4 n) else .error .structError

/-- `struct.pack('!q', n)`: 8 bytes big-endian two's complement,
`struct.error` outside the signed 64-bit range. -/
def packInt64 (n : Int) : Except PyErr (List Nat) :=
  if -(2 ^ 63) ≤ n ∧ n < 2 ^ 63 then .ok (beBytes 8 (n % 2 ^ 64).toNat)
  else .error .structError

/-- Signed 64-bit value of an unsigned 64-bit pattern (two's complement). -/
def int64OfNat (u : Nat) : Int :=
  if u < 2 ^ 63 then (u : Int) else (u : Int) - 2 ^ 64

/-- UTF-8 bytes of one unicode scalar value. -/
def utf8EncodeChar (c : Char) : List Nat :=
  let n := c.toNat
  if n < 0x80 then [n]
  else if n < 0x800 then [0xC0 + n / 64, 0x80 + n % 64]
  else if n < 0x10000 then
    [0xE0 + n / 4096, 0x80 + n / 64 % 64, 0x80 + n % 64]
  else
    [0xF0 + n / 262144, 0x80 + n / 4096 % 64, 0x80 + n / 64 % 64, 0x80 + n % 64]

/-- `s.encode('utf-8')` for a Python `str` (src/main.py:108,115). -/
def utf8Encode (s : String) : List Nat :=
  (s.data.map utf8EncodeChar).flatten

/-- Is `b` a UTF-8 continuation byte? -/
def isContByte (b : Nat) : Bool :=
  0x80 ≤ b && b ≤ 0xBF

/-- Strict UTF-8 decoding of a byte list into unicode scalar values, `none`
on any invalid sequence (mirrors CPython's strict `bytes.decode('utf-8')`,
including the rejection of overlong forms, surrogates and lead bytes above
`0xF4`). -/
def utf8DecodeAux : List Nat → Option (List Char)
  | [] => some []
  | b :: rest =>
    if b < 0x80 then
      (utf8DecodeAux rest).map (fun cs => Char.ofNat b :: cs)
    else if 0xC2 ≤ b && b ≤ 0xDF then
      match rest with
      | c1 :: rest2 =>
        if isContByte c1 then
          (utf8DecodeAux rest2).map (fun cs =>
            Char.ofNat ((b - 0xC0) * 64 + (c1 - 0x80)) :: cs)
        else none
      | [] => none
    else if 0xE0 ≤ b && b ≤ 0xEF then
      match rest with
      | c1 :: c2 :: rest2 =>
        if (if b = 0xE0 then 0xA0 ≤ c1 && c1 ≤ 0xBF
            else if b = 0xED then 0x80 ≤ c1 && c1 ≤ 0x9F
            else isContByte c1) && isContByte c2 then
          (utf8DecodeAux rest2).map (fun cs =>
            Char.ofNat ((b - 0xE0) * 4096 + (c1 - 0x80) * 64 + (c2 - 0x80)) :: cs)
        else none
      | _ => none
    else if 0xF0 ≤ b && b ≤ 0xF4 then
      match rest with
      | c1 :: c2 :: c3 :: rest2 =>
        if (if b = 0xF0 then 0x90 ≤ c1 && c1 ≤ 0xBF
            else if b = 0xF4 then 0x80 ≤ c1 && c1 ≤ 0x8F
            else isContByte c1) && isContByte c2 && isContByte c3 then
          (utf8DecodeAux rest2).map (fun cs =>
            Char.ofNat ((b - 0xF0) * 262144 + (c1 - 0x80) * 4096 +
              (c2 - 0x80) * 64 + (c3 - 0x80)) :: cs)
        else none
      | _ => none
    else none

/-- `bytes.decode('utf-8')`: a `UnicodeDecodeError` on invalid UTF-8
(src/main.py:134,138). -/
def utf8Decode (l : List Nat) : Except PyErr String :=
  match utf8DecodeAux (l.map (· % 256)) with
  | some cs => .ok (String.mk cs)
  | Option.none => .error .unicodeDecodeError

/-- `AtomDataclass` (src/main.py:37-44): a frozen dataclass generic in `T`
holding just `value`.  Its `data_type` field is derived from `value` by
`__post_init__` at construction and is never successfully written again
(the only other write, in `decode`, is unreachable — see
`AtomDataclass.decode`), so it is modelled as the derived function
`AtomDataclass.data_type` below rather than a stored duplicate. -/
structure AtomDataclass (T : Type) where
  value : T

namespace AtomDataclass

/-- `__post_init__` stores `type(self.value).__name__.lower()` into
`data_type` (src/main.py:42-44).  Construction performs no validation:
every value is accepted, including unsupported shapes such as `None`. -/
def data_type (a : AtomDataclass PyVal) : String :=
  typeName a.value

/-- `AtomDataclass._determine_data_type` (src/main.py:89-105): the static
helper mapping runtime type names to the six long kind names, with an
`'unknown'` fallthrough.  Dead code — nothing in the class ever calls it. -/
def determine_data_type : PyVal → String
  | .str _ => "string"
  | .int _ => "integer"
  | .float _ => "float"
  | .bool _ => "boolean"
  | .list _ => "list"
  | .dict _ => "dictionary"
  | .none_v => "unknown"

mutual

/-- `AtomDataclass._encode_data` (src/main.py:113-129).  The source compares
`self.data_type` successively with `'string'`, `'integer'`, `'float'`,
`'boolean'`, `'list'`, `'dictionary'`; since `data_type` holds the short
lowered type names (`'str'`, `'int'`, `'bool'`, `'dict'`, ... — see
`typeName`), only the `'float'` and `'list'` comparisons can ever succeed.
All other values fall through to
`raise ValueError(f"Unsupported data type: {self.data_type}")`.  The two
live arms are `struct.pack('!d', value)` for floats (8 big-endian bytes of
the IEEE bit pattern) and, for lists, the concatenation of
`AtomDataclass(element)._encode_data()` over the elements (note: the bare
payloads, with no per-element framing). -/
def encode_data : PyVal → Except PyErr (List Nat)
  | .float bits => .ok (beBytes 8 (bits % 2 ^ 64))
  | .list xs => (encode_elems xs).map List.flatten
  | v => .error (.valueError ("Unsupported data type: " ++ typeName v))

/-- The element-wise traversal of the list comprehension inside
`_encode_data`'s `'list'` arm: the payloads of the elements in order, the
first raised exception propagating. -/
def encode_elems : List PyVal → Except PyErr (List (List Nat))
  | [] => .ok []
  | x :: xs => do
    let hd ← encode_data x
    let tl ← encode_elems xs
    return hd :: tl

end

/-- `AtomDataclass.encode` (src/main.py:107-111):
`header = struct.pack('!I', len(data_bytes))` — the header carries the
PAYLOAD length — followed by the UTF-8 type tag and the payload; an
exception from `_encode_data` or `struct.pack` propagates. -/
def encode (a : AtomDataclass PyVal) : Except PyErr (List Nat) :=
  let data_type_bytes := utf8Encode a.data_type
  match encode_data a.value with
  | .error e => .error e
  | .ok data_bytes =>
    match packU32 data_bytes.length with
    | .error e => .error e
    | .ok header => .ok (header ++ data_type_bytes ++ data_bytes)

/-- The body of `AtomDataclass.decode` (src/main.py:131-165) up to, but not
including, the final assignments: the local `value` and `data_type` the
method computes from the buffer, or the exception raised while computing
them.  Faithfulness notes, top to bottom:

* `struct.unpack('!I', data[:4])` needs exactly 4 bytes, so a buffer shorter
  than 4 bytes raises `struct.error`.
* The header is read as the LENGTH OF THE TYPE TAG:
  `data_type_bytes = data[4:4+header_length]` (while `encode` wrote the
  payload length there).
* `data_type_bytes.decode('utf-8')` can raise `UnicodeDecodeError`.
* `'string'` consumes all remaining bytes; `'integer'` and `'float'` need
  the remainder to be exactly 8 bytes and `'boolean'` exactly 1 byte
  (`struct.unpack` rejects both short and long buffers with `struct.error`).
* `'list'` and `'dictionary'` loop `while offset < len(data_bytes)`,
  calling `AtomDataclass(None).decode(...)` on the remaining slice.  That
  inner call either raises while parsing, or reaches its own
  `self.value = value` assignment — which raises
  `dataclasses.FrozenInstanceError`, `AtomDataclass` being a frozen
  dataclass.  So a non-empty container payload always raises at its first
  element (the subsequent `offset += element_size` lines, which would add
  `None`, are unreachable), and an empty payload yields `[]` / `{}`.
* An unrecognised tag raises `ValueError(f"Unsupported data type: {tag}")`. -/
def decodeValue (data : List Nat) : Except PyErr (PyVal × String) :=
  if data.length < 4 then .error .structError
  else
    let header_length := beNat (data.take 4)
    let data_type_bytes := (data.drop 4).take header_length
    match utf8Decode data_type_bytes with
    | .error e => .error e
    | .ok data_type =>
      let data_bytes := data.drop (4 + header_length)
      if data_type = "string" then
        match utf8Decode data_bytes with
        | .error e => .error e
        | .ok s => .ok (.str s, data_type)
      else if data_type = "integer" then
        if data_bytes.length = 8 then .ok (.int (int64OfNat (beNat data_bytes)), data_type)
        else .error .structError
      else if data_type = "float" then
        if data_bytes.length = 8 then .ok (.float (beNat data_bytes), data_type)
        else .error .structError
      else if data_type = "boolean" then
        if data_bytes.length = 1 then .ok (.bool (data_bytes.headD 0 % 256 != 0), data_type)
        else .error .structError
      else if data_type = "list" then
        if data_bytes.isEmpty then .ok (.list [], data_type)
        else
          match decodeValue data_bytes with
          | .error e => .error e
          | .ok _ => .error .frozenInstanceError
      else if data_type = "dictionary" then
        if data_bytes.isEmpty then .ok (.dict [], data_type)
        else
          match decodeValue data_bytes with
          | .error e => .error e
          | .ok _ => .error .frozenInstanceError
      else .error (.valueError ("Unsupported data type: " ++ data_type))
termination_by data.length
decreasing_by
  all_goals
    simp only [List.length_drop]
    omega

/-- `AtomDataclass.decode` (src/main.py:131-168) in full.  After computing
`value`, the method executes `self.value = value`; `AtomDataclass` is
declared `@dataclass(frozen=True)`, whose generated `__setattr__` raises
`dataclasses.FrozenInstanceError`, so the method never returns normally
(the `object.__setattr__(self, 'data_type', ...)` on the next line is never
reached).  Its result type is therefore `Empty`: every call raises. -/
def decode (data : List Nat) : Except PyErr Empty :=
  match decodeValue data with
  | .ok _ => .error .frozenInstanceError
  | .error e => .error e

end AtomDataclass

/-- The IEEE-754 double operations Python's `float` arithmetic and
comparisons delegate to, as abstract parameters over 64-bit patterns.  The
claims under study never depend on the numeric results of float arithmetic,
only on which operand-kind combinations raise, so every theorem below holds
for an arbitrary interpretation of these fields.  `cmp` returns `none` for
unordered operands (NaN); `ofInt` is the (rounding) int-to-double
conversion; `divInt` is Python's correctly rounded true division of two
ints; `cmpIntFloat` compares an int with a double exactly. -/
structure FloatOps where
  ofInt : Int → Nat
  add : Nat → Nat → Nat
  sub : Nat → Nat → Nat
  mul : Nat → Nat → Nat
  div : Nat → Nat → Nat
  divInt : Int → Int → Nat
  cmp : Nat → Nat → Option Ordering
  cmpIntFloat : Int → Nat → Option Ordering

/-- A concrete (numerically meaningless) instantiation of `FloatOps`, used
only to set up closed counterexamples; the kind/raise behaviour being
refuted is independent of it. -/
def F0 : FloatOps :=
  ⟨fun _ => 0, fun _ _ => 0, fun _ _ => 0, fun _ _ => 0, fun _ _ => 0,
   fun _ _ => 0, fun _ _ => Option.none, fun _ _ => Option.none⟩

/-- Python's numeric tower as seen by the binary operators: `int` and `bool`
coerce to mathematical integers (`True` is `1`, `False` is `0`), `float` is
a bit pattern.  Non-numeric values map to `none`. -/
def toNumeric? : PyVal → Option (Int ⊕ Nat)
  | .int n => some (.inl n)
  | .bool b => some (.inl (if b then 1 else 0))
  | .float bits => some (.inr bits)
  | _ => Option.none

/-- The `__index__` coercion used by sequence repetition: ints and bools. -/
def toIndex? : PyVal → Option Int
  | .int n => some n
  | .bool b => some (if b then 1 else 0)
  | _ => Option.none

/-- Double interpretation of a numeric operand. -/
def floatOf (F : FloatOps) : Int ⊕ Nat → Nat
  | .inl n => F.ofInt n
  | .inr bits => bits

/-- Python `==` between two numeric operands (never raises). -/
def numEq (F : FloatOps) : Int ⊕ Nat → Int ⊕ Nat → Bool
  | .inl x, .inl y => x == y
  | .inl x, .inr b => F.cmpIntFloat x b == some .eq
  | .inr b, .inl x => F.cmpIntFloat x b == some .eq
  | .inr b1, .inr b2 => F.cmp b1 b2 == some .eq

/-- Python `<` between two numeric operands. -/
def numLt (F : FloatOps) : Int ⊕ Nat → Int ⊕ Nat → Bool
  | .inl x, .inl y => x < y
  | .inl x, .inr b => F.cmpIntFloat x b == some .lt
  | .inr b, .inl x => F.cmpIntFloat x b == some .gt
  | .inr b1, .inr b2 => F.cmp b1 b2 == some .lt

/-- Python `<=` between two numeric operands. -/
def numLe (F : FloatOps) : Int ⊕ Nat → Int ⊕ Nat → Bool
  | .inl x, .inl y => x ≤ y
  | .inl x, .inr b => F.cmpIntFloat x b == some .lt || F.cmpIntFloat x b == some .eq
  | .inr b, .inl x => F.cmpIntFloat x b == some .gt || F.cmpIntFloat x b == some .eq
  | .inr b1, .inr b2 => F.cmp b1 b2 == some .lt || F.cmp b1 b2 == some .eq

/-- Is a numeric operand zero (the `ZeroDivisionError` test)?  Both IEEE
zeros count: pattern `0` and the sign-flipped `2 ^ 63`. -/
def numIsZero : Int ⊕ Nat → Bool
  | .inl x => x == 0
  | .inr b => b % 2 ^ 64 == 0 || b % 2 ^ 64 == 2 ^ 63

mutual

/-- Python `==` on the values an Atom can hold (structural for containers,
numeric-tower aware for `int`/`bool`/`float`; `==` between builtins never
raises, unrelated types simply compare unequal).  Dict equality is
order-insensitive: equal sizes and every key of the left dict present in
the right with `==`-equal value. -/
def pyEq (F : FloatOps) : PyVal → PyVal → Bool := fun a b =>
  match toNumeric? a, toNumeric? b with
  | some na, some nb => numEq F na nb
  | _, _ =>
    match a, b with
    | .str s, .str t => s == t
    | .list xs, .list ys => pyEqList F xs ys
    | .dict d1, .dict d2 => (d1.length == d2.length) && pyEqDictItems F d1 d2
    | .none_v, .none_v => true
    | _, _ => false

/-- Elementwise list `==`: equal lengths, elements pairwise equal. -/
def pyEqList (F : FloatOps) : List PyVal → List PyVal → Bool
  | [], [] => true
  | x :: xs, y :: ys => pyEq F x y && pyEqList F xs ys
  | _, _ => false

/-- Every item of the first dict is matched by key in the second. -/
def pyEqDictItems (F : FloatOps) : List (PyVal × PyVal) → List (PyVal × PyVal) → Bool
  | [], _ => true
  | (k, v) :: rest, d2 => pyEqLookup F k v d2 && pyEqDictItems F rest d2

/-- Find the entry of `d` whose key `==`-equals `k` and compare its value
with `v`. -/
def pyEqLookup (F : FloatOps) (k v : PyVal) : List (PyVal × PyVal) → Bool
  | [] => false
  | (k2, v2) :: rest => if pyEq F k k2 then pyEq F v v2 else pyEqLookup F k v rest

end

mutual

/-- Python `<` on the values an Atom can hold.  Numeric pairs and same-type
strings/lists are ordered; every other combination raises `TypeError`
(`'<' not supported between instances of ...`). -/
def pyLt (F : FloatOps) : PyVal → PyVal → Except PyErr Bool := fun a b =>
  match toNumeric? a, toNumeric? b with
  | some na, some nb => .ok (numLt F na nb)
  | _, _ =>
    match a, b with
    | .str s, .str t => .ok (decide (s < t))
    | .list xs, .list ys => pyLtList F xs ys
    | _, _ => .error .typeError

/-- Lexicographic list `<`: skip `==`-equal prefixes, order by the first
differing pair (which may itself raise), else by length. -/
def pyLtList (F : FloatOps) : List PyVal → List PyVal → Except PyErr Bool
  | [], [] => .ok false
  | [], _ :: _ => .ok true
  | _ :: _, [] => .ok false
  | x :: xs, y :: ys => if pyEq F x y then pyLtList F xs ys else pyLt F x y

end

mutual

/-- Python `<=` on the values an Atom can hold (same shape as `pyLt`). -/
def pyLe (F : FloatOps) : PyVal → PyVal → Except PyErr Bool := fun a b =>
  match toNumeric? a, toNumeric? b with
  | some na, some nb => .ok (numLe F na nb)
  | _, _ =>
    match a, b with
    | .str s, .str t => .ok (decide (s ≤ t))
    | .list xs, .list ys => pyLeList F xs ys
    | _, _ => .error .typeError

/-- Lexicographic list `<=`: equal prefixes defer to length, the first
differing pair decides by `<`. -/
def pyLeList (F : FloatOps) : List PyVal → List PyVal → Except PyErr Bool
  | [], _ => .ok true
  | _ :: _, [] => .ok false
  | x :: xs, y :: ys => if pyEq F x y then pyLeList F xs ys else pyLt F x y

end

/-- Python `>` for the built-in types modelled here is the mirrored `<`:
`x > y` holds exactly when `y < x` (same `TypeError` cases). -/
def pyGt (F : FloatOps) (a b : PyVal) : Except PyErr Bool :=
  pyLt F b a

/-- Python `>=`, the mirrored `<=`. -/
def pyGe (F : FloatOps) (a b : PyVal) : Except PyErr Bool :=
  pyLe F b a

/-- Python `+`: ints (and bools-as-ints) add, any float operand forces IEEE
addition, strings and lists concatenate; anything else raises `TypeError`. -/
def pyAdd (F : FloatOps) (a b : PyVal) : Except PyErr PyVal :=
  match toNumeric? a, toNumeric? b with
  | some (.inl x), some (.inl y) => .ok (.int (x + y))
  | some na, some nb => .ok (.float (F.add (floatOf F na) (floatOf F nb)))
  | _, _ =>
    match a, b with
    | .str s, .str t => .ok (.str (s ++ t))
    | .list xs, .list ys => .ok (.list (xs ++ ys))
    | _, _ => .error .typeError

/-- Python `-`: defined on numerics only. -/
def pySub (F : FloatOps) (a b : PyVal) : Except PyErr PyVal :=
  match toNumeric? a, toNumeric? b with
  | some (.inl x), some (.inl y) => .ok (.int (x - y))
  | some na, some nb => .ok (.float (F.sub (floatOf F na) (floatOf F nb)))
  | _, _ => .error .typeError

/-- `s * n` string repetition (`n <= 0` gives the empty string). -/
def strRepeat (s : String) (n : Int) : String :=
  String.join (List.replicate n.toNat s)

/-- `xs * n` list repetition (`n <= 0` gives the empty list). -/
def listRepeat (xs : List PyVal) (n : Int) : List PyVal :=
  (List.replicate n.toNat xs).flatten

/-- Python `*`: numeric multiplication, plus sequence repetition when one
operand is a `str` or `list` and the other an `int`/`bool`; anything else
raises `TypeError`. -/
def pyMul (F : FloatOps) (a b : PyVal) : Except PyErr PyVal :=
  match toNumeric? a, toNumeric? b with
  | some (.inl x), some (.inl y) => .ok (.int (x * y))
  | some na, some nb => .ok (.float (F.mul (floatOf F na) (floatOf F nb)))
  | _, _ =>
    match a, toIndex? b with
    | .str s, some n => .ok (.str (strRepeat s n))
    | .list xs, some n => .ok (.list (listRepeat xs n))
    | _, _ =>
      match toIndex? a, b with
      | some n, .str s => .ok (.str (strRepeat s n))
      | some n, .list xs => .ok (.list (listRepeat xs n))
      | _, _ => .error .typeError

/-- Python `/` (true division): numerics only, raising `ZeroDivisionError`
on a zero divisor (int `0`, `False`, or either IEEE zero); the result is
always a float, via exact int/int division or IEEE division. -/
def pyDiv (F : FloatOps) (a b : PyVal) : Except PyErr PyVal :=
  match toNumeric? a, toNumeric? b with
  | some na, some nb =>
    if numIsZero nb then .error .zeroDivisionError
    else
      match na, nb with
      | .inl x, .inl y => .ok (.float (F.divInt x y))
      | _, _ => .ok (.float (F.div (floatOf F na) (floatOf F nb)))
  | _, _ => .error .typeError

/-- The right operand of a comparison dunder: either another
`AtomDataclass` or an arbitrary non-Atom Python object (whose payload the
source never inspects — every comparison method starts with
`isinstance(other, AtomDataclass)`). -/
inductive PyOperand (β : Type) where
  | atom (a : AtomDataclass PyVal)
  | nonAtom (b : β)

namespace AtomDataclass

/-- `__eq__` (src/main.py:64-67): `self.value == other.value` when `other`
is an `AtomDataclass`, else `False`. -/
def dunder_eq {β : Type} (F : FloatOps) (self : AtomDataclass PyVal)
    (other : PyOperand β) : Bool :=
  match other with
  | .atom o => pyEq F self.value o.value
  | .nonAtom _ => false

/-- `__lt__` (src/main.py:69-72): `self.value < other.value` when `other`
is an `AtomDataclass` (which may raise `TypeError`), else `False`. -/
def dunder_lt {β : Type} (F : FloatOps) (self : AtomDataclass PyVal)
    (other : PyOperand β) : Except PyErr Bool :=
  match other with
  | .atom o => pyLt F self.value o.value
  | .nonAtom _ => .ok false

/-- `__le__` (src/main.py:74-77). -/
def dunder_le {β : Type} (F : FloatOps) (self : AtomDataclass PyVal)
    (other : PyOperand β) : Except PyErr Bool :=
  match other with
  | .atom o => pyLe F self.value o.value
  | .nonAtom _ => .ok false

/-- `__gt__` (src/main.py:79-82). -/
def dunder_gt {β : Type} (F : FloatOps) (self : AtomDataclass PyVal)
    (other : PyOperand β) : Except PyErr Bool :=
  match other with
  | .atom o => pyGt F self.value o.value
  | .nonAtom _ => .ok false

/-- `__ge__` (src/main.py:84-87). -/
def dunder_ge {β : Type} (F : FloatOps) (self : AtomDataclass PyVal)
    (other : PyOperand β) : Except PyErr Bool :=
  match other with
  | .atom o => pyGe F self.value o.value
  | .nonAtom _ => .ok false

/-- `__add__` (src/main.py:52-53):
`AtomDataclass(self.value + other.value)` — a new Atom around the raw
operator result, any operator exception propagating. -/
def dunder_add (F : FloatOps) (self other : AtomDataclass PyVal) :
    Except PyErr (AtomDataclass PyVal) :=
  (pyAdd F self.value other.value).map AtomDataclass.mk

/-- `__sub__` (src/main.py:55-56). -/
def dunder_sub (F : FloatOps) (self other : AtomDataclass PyVal) :
    Except PyErr (AtomDataclass PyVal) :=
  (pySub F self.value other.value).map AtomDataclass.mk

/-- `__mul__` (src/main.py:58-59). -/
def dunder_mul (F : FloatOps) (self other : AtomDataclass PyVal) :
    Except PyErr (AtomDataclass PyVal) :=
  (pyMul F self.value other.value).map AtomDataclass.mk

/-- `__truediv__` (src/main.py:61-62). -/
def dunder_div (F : FloatOps) (self other : AtomDataclass PyVal) :
    Except PyErr (AtomDataclass PyVal) :=
  (pyDiv F self.value other.value).map AtomDataclass.mk

end AtomDataclass

/-- `FormalTheory` (src/main.py:174-200): a bundle of replaceable
predicates over a value type `T` plus the `case_base` registry of binary
selectors, modelled as an insertion-ordered association list keyed by
symbol.  (The source's default predicate values compare with `==`; the
claims quantify over arbitrary configured predicates, so no default is
fixed here.) -/
structure FormalTheory (T : Type) where
  reflexivity : T → Bool
  symmetry : T → T → Bool
  transitivity : T → T → T → Bool
  transparency : (Bool → T → T → T) → T → T → Option T
  case_base : List (String × (T → T → T))

namespace FormalTheory

/-- `FormalTheory.if_else` (src/main.py:189-191): `x if a else y`. -/
def if_else {T : Type} (a : Bool) (x y : T) : T :=
  if a then x else y

/-- `FormalTheory.if_else_a` (src/main.py:193-194):
`self.if_else(True, x, y)` (the bound method uses no other state). -/
def if_else_a {T : Type} (x y : T) : T :=
  if_else true x y

set_option linter.unusedVariables false in
/-- Construction of a `FormalTheory` (src/main.py:174-187): whatever
`case_base` the caller supplies, `__post_init__` unconditionally replaces
it with the fixed three-entry registry
`{'⊤': λ x, _: x, '⊥': λ _, y: y, 'a': self.if_else_a}`. -/
def mkFormalTheory {T : Type} (refl : T → Bool) (sym : T → T → Bool)
    (trans : T → T → T → Bool) (transp : (Bool → T → T → T) → T → T → Option T)
    (case_base0 : List (String × (T → T → T))) : FormalTheory T :=
  { reflexivity := refl
    symmetry := sym
    transitivity := trans
    transparency := transp
    case_base := [("⊤", fun x _ => x), ("⊥", fun _ y => y),
                  ("a", fun x y => if_else_a x y)] }

/-- `FormalTheory.compare` (src/main.py:196-200): `False` on an empty list,
else the conjunction of `symmetry(atoms[0].value, atoms[i].value)` over the
remaining atoms (the list comprehension builds all comparisons, `all` folds
them). -/
def compare {T : Type} (th : FormalTheory T) (atoms : List (AtomDataclass T)) : Bool :=
  match atoms with
  | [] => false
  | a0 :: rest => (rest.map (fun ai => th.symmetry a0.value ai.value)).all id

/-- Look a selector up in `case_base` and apply it (the way callers consume
the registry). -/
def applyCase {T : Type} (th : FormalTheory T) (k : String) (x y : T) : Option T :=
  (th.case_base.lookup k).map (fun f => f x y)

end FormalTheory

/-- Folding a mapped Boolean list with `all id` is `all` of the function
(the shape `all([f(x) for x in l])` takes in the source). -/
theorem all_map_id {α : Type} (f : α → Bool) (l : List α) :
    (l.map f).all id = l.all f := by
  induction l with
  | nil => rfl
  | cons x xs ih => simp [List.all_cons, ih]

/-- C1 (code bug): the claimed round-trip `decode(encode(a)) == a` fails on
the code.  `encode(AtomDataclass(5))` already raises
`ValueError('Unsupported data type: int')`, because `__post_init__` stores
the short type name `'int'` while `_encode_data` tests `'integer'`; on a
float Atom, where `encode` does return bytes, `decode` re-reads the
payload-length header (8) as the tag length, consumes three payload bytes
into the tag and dies on invalid UTF-8 (`0xF8` is no lead byte); and
`decode` can never return an Atom anyway, its final `self.value = value`
raising `FrozenInstanceError` on the frozen dataclass. -/
theorem roundtrip_code_bug :
    AtomDataclass.encode ⟨PyVal.int 5⟩ =
      .error (.valueError "Unsupported data type: int")
    ∧ AtomDataclass.encode ⟨PyVal.float 4609434218613702656⟩ =
      .ok [0, 0, 0, 8, 102, 108, 111, 97, 116, 63, 248, 0, 0, 0, 0, 0, 0]
    ∧ AtomDataclass.decode [0, 0, 0, 8, 102, 108, 111, 97, 116, 63, 248, 0, 0, 0, 0, 0, 0] =
      .error .unicodeDecodeError := by
  refine ⟨rfl, rfl, ?_⟩
  unfold AtomDataclass.decode AtomDataclass.decodeValue
  rfl

/-- C2 (counterexample): the claim says the 4-byte header equals the length
of the type tag; for the float Atom `2.0` the encoder returns a buffer
whose header reads 8 — the payload length — while the UTF-8 tag `'float'`
is 5 bytes long. -/
theorem header_is_not_tag_length :
    AtomDataclass.encode ⟨PyVal.float 4611686018427387904⟩ =
      .ok ([0, 0, 0, 8] ++ utf8Encode "float" ++ [64, 0, 0, 0, 0, 0, 0, 0])
    ∧ beNat [0, 0, 0, 8] = 8
    ∧ (utf8Encode "float").length = 5
    ∧ ((8 : Nat) == 5) = false :=
  ⟨rfl, rfl, rfl, rfl⟩

/-- C2 (amended): whenever `encode` returns a byte sequence at all, that
sequence is the 4-byte big-endian PAYLOAD length, followed by the UTF-8
type tag, followed by the payload — the header carries the payload length,
not the tag length. -/
theorem encode_header_is_payload_length (a : AtomDataclass PyVal) (bs : List Nat)
    (h : AtomDataclass.encode a = .ok bs) :
    ∃ payload, AtomDataclass.encode_data a.value = .ok payload ∧
      bs = beBytes 4 payload.length ++ utf8Encode a.data_type ++ payload := by
  unfold AtomDataclass.encode at h
  cases e1 : AtomDataclass.encode_data a.value with
  | error e => rw [e1] at h; exact absurd h (by simp)
  | ok payload =>
    rw [e1] at h
    dsimp only at h
    unfold packU32 at h
    by_cases hlen : payload.length < 2 ^ 32
    · rw [if_pos hlen] at h
      refine ⟨payload, rfl, ?_⟩
      cases h
      rfl
    · rw [if_neg hlen] at h
      exact absurd h (by simp)

/-- C2 (witness for the amended theorem): the float Atom `2.0`'s encoding
instantiates the framing decomposition concretely. -/
theorem encode_header_is_payload_length_witness :
    ∃ payload, AtomDataclass.encode_data (PyVal.float 4611686018427387904) = .ok payload ∧
      ([0, 0, 0, 8] ++ utf8Encode "float" ++ [64, 0, 0, 0, 0, 0, 0, 0] : List Nat) =
        beBytes 4 payload.length ++
          utf8Encode (AtomDataclass.data_type ⟨PyVal.float 4611686018427387904⟩) ++ payload :=
  encode_header_is_payload_length ⟨PyVal.float 4611686018427387904⟩ _ (by rfl)

/-- C3 (code bug): construction is claimed to store the six long kind names
via the fixed mapping, but `__post_init__` stores
`type(value).__name__.lower()` — `AtomDataclass('x')` carries `data_type
'str'`, which is not one of the six kinds; the static helper
`_determine_data_type`, which does implement the claimed mapping
(text → `'string'`, boolean → `'boolean'`, whole number → `'integer'`,
real → `'float'`, sequence → `'list'`, mapping → `'dictionary'`), is never
called. -/
theorem data_type_stores_short_names (s : String) (n : Int) (b : Bool) (bits : Nat)
    (xs : List PyVal) (d : List (PyVal × PyVal)) :
    (AtomDataclass.mk (PyVal.str s)).data_type = "str"
    ∧ (sixKinds.contains "str") = false
    ∧ AtomDataclass.determine_data_type (PyVal.str s) = "string"
    ∧ AtomDataclass.determine_data_type (PyVal.int n) = "integer"
    ∧ AtomDataclass.determine_data_type (PyVal.bool b) = "boolean"
    ∧ AtomDataclass.determine_data_type (PyVal.float bits) = "float"
    ∧ AtomDataclass.determine_data_type (PyVal.list xs) = "list"
    ∧ AtomDataclass.determine_data_type (PyVal.dict d) = "dictionary" :=
  ⟨rfl, rfl, rfl, rfl, rfl, rfl, rfl, rfl⟩

/-- C4 (confirmed): `compare` returns `false` on the empty list, `true` on
a singleton, and on `atoms[0] :: rest` it returns `true` exactly when the
configured `symmetry` predicate accepts `atoms[0].value` against the value
of every remaining atom. -/
theorem compare_empty_single_pairwise {T : Type} (th : FormalTheory T)
    (a0 : AtomDataclass T) (rest : List (AtomDataclass T)) :
    FormalTheory.compare th [] = false
    ∧ FormalTheory.compare th [a0] = true
    ∧ FormalTheory.compare th (a0 :: rest) =
        rest.all (fun ai => th.symmetry a0.value ai.value) := by
  refine ⟨rfl, rfl, ?_⟩
  have h : FormalTheory.compare th (a0 :: rest) =
      (rest.map (fun ai => th.symmetry a0.value ai.value)).all id := rfl
  rw [h, all_map_id]

/-- C5 (confirmed): malformed buffers make `decode` raise and it never
returns a populated Atom.  Concretely: a buffer shorter than the 4-byte
header raises `struct.error`; the spec's example (a declared tag length of
10 with only 3 bytes remaining) raises
`ValueError('Unsupported data type: abc')`; a fixed-width `integer` payload
of only 2 bytes raises `struct.error`.  In general no call to `decode`
returns normally on any buffer (the code has no class literally named
`MalformedEncoding`; these interpreter exceptions are its malformed-input
failures). -/
theorem decode_malformed_always_fails (data : List Nat) :
    AtomDataclass.decodeValue [1, 2] = .error .structError
    ∧ AtomDataclass.decodeValue [0, 0, 0, 10, 97, 98, 99] =
        .error (.valueError "Unsupported data type: abc")
    ∧ AtomDataclass.decodeValue ([0, 0, 0, 7] ++ utf8Encode "integer" ++ [1, 2]) =
        .error .structError
    ∧ ∃ e, AtomDataclass.decode data = .error e := by
  refine ⟨?_, ?_, ?_, ?_⟩
  · unfold AtomDataclass.decodeValue
    rfl
  · unfold AtomDataclass.decodeValue
    rfl
  · unfold AtomDataclass.decodeValue
    rfl
  · unfold AtomDataclass.decode
    cases AtomDataclass.decodeValue data <;> exact ⟨_, rfl⟩

/-- C6 (counterexample): the claim says no Atom with an unsupported kind is
ever produced, but construction performs no validation — `AtomDataclass(None)`
is produced, carrying the kind tag `'nonetype'`, which is none of the six
recognised kinds. -/
theorem unsupported_atom_is_constructed :
    (AtomDataclass.mk PyVal.none_v).data_type = "nonetype"
    ∧ (sixKinds.contains "nonetype") = false :=
  ⟨rfl, rfl⟩

/-- C6 (amended): construction accepts any value, storing the lowered
runtime type name, so Atoms of unsupported kind are produced; encoding such
an Atom fails with `ValueError('Unsupported data type: ...')`, so none is
ever encoded. -/
theorem unsupported_value_construct_encode :
    AtomDataclass.encode ⟨PyVal.none_v⟩ =
      .error (.valueError "Unsupported data type: nonetype")
    ∧ (AtomDataclass.mk PyVal.none_v).data_type = "nonetype" :=
  ⟨rfl, rfl⟩

/-- C7 (counterexample): the claim says every arithmetic operator on a
list-kind Atom fails with a type error, but `+` on two list Atoms succeeds,
returning a new Atom wrapping the concatenation. -/
theorem list_add_succeeds :
    AtomDataclass.dunder_add F0 ⟨PyVal.list [PyVal.int 1]⟩ ⟨PyVal.list [PyVal.int 2]⟩ =
      .ok ⟨PyVal.list [PyVal.int 1, PyVal.int 2]⟩ :=
  rfl

/-- C7 (amended): each arithmetic dunder applies the underlying Python
operator to the two `value`s and wraps a successful result in a new Atom,
propagating the operator's exception otherwise.  On non-scalar operands,
`-` and `/` on lists and all four operators on dictionaries raise
`TypeError`, but `+` on two lists concatenates and `*` of a list by an
integer Atom replicates, succeeding without error; on scalar pairs the new
Atom wraps the raw operator result. -/
theorem arithmetic_operator_behaviour (F : FloatOps) (xs ys : List PyVal)
    (d1 d2 : List (PyVal × PyVal)) (n m : Int) (s t : String) :
    AtomDataclass.dunder_add F ⟨PyVal.list xs⟩ ⟨PyVal.list ys⟩ = .ok ⟨PyVal.list (xs ++ ys)⟩
    ∧ AtomDataclass.dunder_mul F ⟨PyVal.list xs⟩ ⟨PyVal.int n⟩ = .ok ⟨PyVal.list (listRepeat xs n)⟩
    ∧ AtomDataclass.dunder_sub F ⟨PyVal.list xs⟩ ⟨PyVal.list ys⟩ = .error .typeError
    ∧ AtomDataclass.dunder_div F ⟨PyVal.list xs⟩ ⟨PyVal.list ys⟩ = .error .typeError
    ∧ AtomDataclass.dunder_add F ⟨PyVal.dict d1⟩ ⟨PyVal.dict d2⟩ = .error .typeError
    ∧ AtomDataclass.dunder_sub F ⟨PyVal.dict d1⟩ ⟨PyVal.dict d2⟩ = .error .typeError
    ∧ AtomDataclass.dunder_mul F ⟨PyVal.dict d1⟩ ⟨PyVal.dict d2⟩ = .error .typeError
    ∧ AtomDataclass.dunder_div F ⟨PyVal.dict d1⟩ ⟨PyVal.dict d2⟩ = .error .typeError
    ∧ AtomDataclass.dunder_add F ⟨PyVal.int n⟩ ⟨PyVal.int m⟩ = .ok ⟨PyVal.int (n + m)⟩
    ∧ AtomDataclass.dunder_sub F ⟨PyVal.int n⟩ ⟨PyVal.int m⟩ = .ok ⟨PyVal.int (n - m)⟩
    ∧ AtomDataclass.dunder_mul F ⟨PyVal.int n⟩ ⟨PyVal.int m⟩ = .ok ⟨PyVal.int (n * m)⟩
    ∧ AtomDataclass.dunder_add F ⟨PyVal.str s⟩ ⟨PyVal.str t⟩ = .ok ⟨PyVal.str (s ++ t)⟩ :=
  ⟨rfl, rfl, rfl, rfl, rfl, rfl, rfl, rfl, rfl, rfl, rfl, rfl⟩

/-- C8 (confirmed): `<` between an integer-kind Atom and a string-kind Atom
raises (`TypeError`, the interpreter exception realising the spec's
"incomparable operands" failure); it does not silently return `False`. -/
theorem int_lt_string_raises (F : FloatOps) (n : Int) (s : String) :
    AtomDataclass.dunder_lt F ⟨PyVal.int n⟩
      (PyOperand.atom ⟨PyVal.str s⟩ : PyOperand Unit) = .error .typeError :=
  rfl

/-- C9 (confirmed): immediately after construction, whatever `case_base`
mapping was supplied, the registry holds exactly the keys `⊤`, `⊥`, `a`;
`⊤` selects its first argument, `⊥` its second, and `a` — the explicit
true-branch selector — its first. -/
theorem case_base_fixed_registry {T : Type} (refl : T → Bool) (sym : T → T → Bool)
    (trans : T → T → T → Bool) (transp : (Bool → T → T → T) → T → T → Option T)
    (case_base0 : List (String × (T → T → T))) (x y : T) :
    ((FormalTheory.mkFormalTheory refl sym trans transp case_base0).case_base.map
        Prod.fst = ["⊤", "⊥", "a"])
    ∧ FormalTheory.applyCase (FormalTheory.mkFormalTheory refl sym trans transp case_base0)
        "⊤" x y = some x
    ∧ FormalTheory.applyCase (FormalTheory.mkFormalTheory refl sym trans transp case_base0)
        "⊥" x y = some y
    ∧ FormalTheory.applyCase (FormalTheory.mkFormalTheory refl sym trans transp case_base0)
        "a" x y = some x :=
  ⟨rfl, rfl, rfl, rfl⟩

/-- C10 (confirmed): every comparison dunder applied to a non-Atom right
operand returns `False` without raising, whatever the Atom's kind and the
operand's value. -/
theorem nonatom_comparisons_false {β : Type} (F : FloatOps)
    (a : AtomDataclass PyVal) (b : β) :
    AtomDataclass.dunder_eq F a (PyOperand.nonAtom b) = false
    ∧ AtomDataclass.dunder_lt F a (PyOperand.nonAtom b) = .ok false
    ∧ AtomDataclass.dunder_le F a (PyOperand.nonAtom b) = .ok false
    ∧ AtomDataclass.dunder_gt F a (PyOperand.nonAtom b) = .ok false
    ∧ AtomDataclass.dunder_ge F a (PyOperand.nonAtom b) = .ok false :=
  ⟨rfl, rfl, rfl, rfl, rfl⟩
